import Mathlib

/-!
Verification development for the `httpSwagger` configuration builder
(`src/swagger_config.go`).  The Go code is a functional-options builder:
a `Config` record, ~20 option functions of type `func(*Config)`, and a
constructor `newConfig` that starts from a fixed default record, applies
the options in order, and backfills the instance name.

The embedding is direct: Go's `template.JS` string wrapper becomes the
one-field structure `TemplateJS`; each Go option `func(*Config)` becomes a
Lean function `Config → Config`; `newConfig`'s variadic argument becomes a
`List (Config → Config)` folded left-to-right.  Go's `map[template.JS]template.JS`
is embedded as an association list of pairs (the option building it iterates
a caller-supplied `map[string]string`, embedded likewise as a list of pairs).
-/

namespace HttpSwagger

/-- Embedding of Go's `template.JS`: a raw-script string wrapper; the Go
conversion `template.JS(s)` is `TemplateJS.mk s` and changes no characters. -/
structure TemplateJS where
  js : String
deriving DecidableEq, Repr

/-- `URLsConfig` from the source: one named swagger document location. -/
structure URLsConfig where
  URL : String
  Name : String
deriving DecidableEq, Repr

/-- `Config` from the source, field for field.  Go `int` is embedded as `Int`
(depths may be negative), slices as lists, the `UIConfig` map as an
association list. -/
structure Config where
  URL : String
  URLs : List URLsConfig
  DocExpansion : String
  DeepLinking : Bool
  DomID : String
  PersistAuthorization : Bool
  DisplayOperationID : Bool
  DefaultModelsExpandDepth : Int
  DefaultModelExpandDepth : Int
  DefaultModelRendering : String
  DisplayRequestDuration : Bool
  ShowExtensions : Bool
  ShowCommonExtensions : Bool
  SupportedSubmitMethods : List String
  TryItOutEnabled : Bool
  InstanceName : String
  BeforeScript : TemplateJS
  AfterScript : TemplateJS
  Plugins : List TemplateJS
  UIConfig : List (TemplateJS × TemplateJS)
deriving DecidableEq, Repr

/-- Option `URL` from the source: overwrite the primary document URL. -/
def URL (url : String) : Config → Config :=
  fun c => { c with URL := url }

/-- Option `URLs` from the source: append one `(url, name)` entry. -/
def URLs (url : String) (name : String) : Config → Config :=
  fun c => { c with URLs := c.URLs ++ [⟨url, name⟩] }

/-- Option `DeepLinking` from the source. -/
def DeepLinking (deepLinking : Bool) : Config → Config :=
  fun c => { c with DeepLinking := deepLinking }

/-- Option `DocExpansion` from the source. -/
def DocExpansion (docExpansion : String) : Config → Config :=
  fun c => { c with DocExpansion := docExpansion }

/-- Option `DomID` from the source. -/
def DomID (domID : String) : Config → Config :=
  fun c => { c with DomID := domID }

/-- Option `InstanceName` from the source. -/
def InstanceName (name : String) : Config → Config :=
  fun c => { c with InstanceName := name }

/-- Option `PersistAuthorization` from the source. -/
def PersistAuthorization (persistAuthorization : Bool) : Config → Config :=
  fun c => { c with PersistAuthorization := persistAuthorization }

/-- Option `DisplayOperationID` from the source. -/
def DisplayOperationID (displayOperationID : Bool) : Config → Config :=
  fun c => { c with DisplayOperationID := displayOperationID }

/-- Option `DefaultModelsExpandDepth` from the source. -/
def DefaultModelsExpandDepth (defaultModelsExpandDepth : Int) : Config → Config :=
  fun c => { c with DefaultModelsExpandDepth := defaultModelsExpandDepth }

/-- Option `DefaultModelExpandDepth` from the source. -/
def DefaultModelExpandDepth (defaultModelExpandDepth : Int) : Config → Config :=
  fun c => { c with DefaultModelExpandDepth := defaultModelExpandDepth }

/-- Option `DefaultModelRendering` from the source. -/
def DefaultModelRendering (defaultModelRendering : String) : Config → Config :=
  fun c => { c with DefaultModelRendering := defaultModelRendering }

/-- Option `DisplayRequestDuration` from the source. -/
def DisplayRequestDuration (displayRequestDuration : Bool) : Config → Config :=
  fun c => { c with DisplayRequestDuration := displayRequestDuration }

/-- Option `ShowExtensions` from the source. -/
def ShowExtensions (showExtensions : Bool) : Config → Config :=
  fun c => { c with ShowExtensions := showExtensions }

/-- Option `ShowCommonExtensions` from the source. -/
def ShowCommonExtensions (showCommonExtensions : Bool) : Config → Config :=
  fun c => { c with ShowCommonExtensions := showCommonExtensions }

/-- Option `SupportedSubmitMethods` from the source: the Go variadic
`...string` slice becomes a list; the field is replaced wholesale. -/
def SupportedSubmitMethods (supportedSubmitMethods : List String) : Config → Config :=
  fun c => { c with SupportedSubmitMethods := supportedSubmitMethods }

/-- Option `Plugins` from the source: convert each string by `template.JS`
and replace the whole list. -/
def Plugins (plugins : List String) : Config → Config :=
  fun c => { c with Plugins := plugins.map (fun v => TemplateJS.mk v) }

/-- Option `UIConfig` from the source: convert each key and value by
`template.JS` and replace the whole map. -/
def UIConfig (props : List (String × String)) : Config → Config :=
  fun c => { c with UIConfig := props.map (fun p => (TemplateJS.mk p.1, TemplateJS.mk p.2)) }

/-- Option `BeforeScript` from the source. -/
def BeforeScript (js : String) : Config → Config :=
  fun c => { c with BeforeScript := TemplateJS.mk js }

/-- Option `AfterScript` from the source. -/
def AfterScript (js : String) : Config → Config :=
  fun c => { c with AfterScript := TemplateJS.mk js }

/-- Modelled from the spec: the process-wide default documentation-set name
`swag.Name` lives in the external `swag` collaborator (not under `src/`);
the source's own doc comment on `InstanceName` records it as `"swagger"`. -/
def swagName : String := "swagger"

/-- The default record `newConfig` starts from (source lines 192–208); Go
zero values give the empty instance name, empty scripts and empty
plugin/UI-config collections. -/
def defaultConfig : Config :=
  { URL := "doc.json"
    URLs := []
    DocExpansion := "list"
    DomID := "swagger-ui"
    DeepLinking := true
    PersistAuthorization := false
    DisplayOperationID := false
    DefaultModelsExpandDepth := 1
    DefaultModelExpandDepth := 1
    DefaultModelRendering := "example"
    DisplayRequestDuration := false
    ShowExtensions := false
    ShowCommonExtensions := false
    SupportedSubmitMethods := ["get", "put", "post", "delete", "options", "head", "patch", "trace"]
    TryItOutEnabled := false
    InstanceName := ""
    BeforeScript := TemplateJS.mk ""
    AfterScript := TemplateJS.mk ""
    Plugins := []
    UIConfig := [] }

/-- `newConfig` from the source: fold the option functions over the default
record in caller order, then backfill an empty instance name with the
process-wide default. -/
def newConfig (configFns : List (Config → Config)) : Config :=
  let config := configFns.foldl (fun c fn => fn c) defaultConfig
  if config.InstanceName = "" then { config with InstanceName := swagName } else config

/-- The option catalog as a first-order datatype, one constructor per option
function of the source, used to quantify over "any sequence of catalog
options". -/
inductive Opt where
  | url (u : String)
  | urls (u n : String)
  | deepLinking (b : Bool)
  | docExpansion (s : String)
  | domID (s : String)
  | instanceName (s : String)
  | persistAuthorization (b : Bool)
  | displayOperationID (b : Bool)
  | defaultModelsExpandDepth (d : Int)
  | defaultModelExpandDepth (d : Int)
  | defaultModelRendering (s : String)
  | displayRequestDuration (b : Bool)
  | showExtensions (b : Bool)
  | showCommonExtensions (b : Bool)
  | supportedSubmitMethods (ms : List String)
  | plugins (ps : List String)
  | uiConfig (props : List (String × String))
  | beforeScript (js : String)
  | afterScript (js : String)
deriving DecidableEq, Repr

/-- Interpretation of a catalog element as the corresponding source option. -/
def Opt.apply : Opt → Config → Config
  | .url u => URL u
  | .urls u n => URLs u n
  | .deepLinking b => DeepLinking b
  | .docExpansion s => DocExpansion s
  | .domID s => DomID s
  | .instanceName s => InstanceName s
  | .persistAuthorization b => PersistAuthorization b
  | .displayOperationID b => DisplayOperationID b
  | .defaultModelsExpandDepth d => DefaultModelsExpandDepth d
  | .defaultModelExpandDepth d => DefaultModelExpandDepth d
  | .defaultModelRendering s => DefaultModelRendering s
  | .displayRequestDuration b => DisplayRequestDuration b
  | .showExtensions b => ShowExtensions b
  | .showCommonExtensions b => ShowCommonExtensions b
  | .supportedSubmitMethods ms => SupportedSubmitMethods ms
  | .plugins ps => Plugins ps
  | .uiConfig props => UIConfig props
  | .beforeScript js => BeforeScript js
  | .afterScript js => AfterScript js

/-- `newConfig` restricted to sequences of catalog options. -/
def newConfigOpts (opts : List Opt) : Config :=
  newConfig (opts.map Opt.apply)

/-- The record state after the option-application loop of `newConfig`,
before the instance-name backfill. -/
def applyAll (opts : List Opt) : Config :=
  opts.foldl (fun c o => o.apply c) defaultConfig

/-- The instance-name post-processing step of `newConfig` (source lines
214–216), factored out for reasoning; `newConfig` is definitionally this
step applied to the fold result. -/
def backfill (c : Config) : Config :=
  if c.InstanceName = "" then { c with InstanceName := swagName } else c

/-- Discriminator: does a catalog option write the `InstanceName` field? -/
def Opt.setsInstanceName : Opt → Bool
  | .instanceName _ => true
  | _ => false

/-- Discriminator: does a catalog option write `SupportedSubmitMethods`? -/
def Opt.setsSubmitMethods : Opt → Bool
  | .supportedSubmitMethods _ => true
  | _ => false

/-- Discriminator: does a catalog option write the `Plugins` field? -/
def Opt.setsPlugins : Opt → Bool
  | .plugins _ => true
  | _ => false

/-- Discriminator: does a catalog option write the `UIConfig` field? -/
def Opt.setsUIConfig : Opt → Bool
  | .uiConfig _ => true
  | _ => false

/-- Discriminator: is a catalog option an add-named-URL invocation? -/
def Opt.isUrls : Opt → Bool
  | .urls _ _ => true
  | _ => false

/-- The `(url, name)` entries contributed by the add-named-URL options of a
sequence, in invocation order. -/
def urlsOf : List Opt → List URLsConfig
  | [] => []
  | .urls u n :: rest => ⟨u, n⟩ :: urlsOf rest
  | _ :: rest => urlsOf rest

/-- The argument of the last set-instance-name invocation of a sequence, if
any. -/
def lastInstanceName : List Opt → Option String
  | [] => none
  | .instanceName s :: rest => some ((lastInstanceName rest).getD s)
  | _ :: rest => lastInstanceName rest

theorem newConfig_eq_backfill (configFns : List (Config → Config)) :
    newConfig configFns = backfill (configFns.foldl (fun c fn => fn c) defaultConfig) := rfl

theorem newConfigOpts_eq_backfill (opts : List Opt) :
    newConfigOpts opts = backfill (applyAll opts) := by
  unfold newConfigOpts applyAll
  rw [newConfig_eq_backfill, List.foldl_map]

theorem applyAll_append (opts1 opts2 : List Opt) :
    applyAll (opts1 ++ opts2) = opts2.foldl (fun c o => o.apply c) (applyAll opts1) := by
  unfold applyAll
  rw [List.foldl_append]

theorem backfill_URL (c : Config) : (backfill c).URL = c.URL := by
  unfold backfill; split <;> rfl

theorem backfill_URLs (c : Config) : (backfill c).URLs = c.URLs := by
  unfold backfill; split <;> rfl

theorem backfill_DocExpansion (c : Config) : (backfill c).DocExpansion = c.DocExpansion := by
  unfold backfill; split <;> rfl

theorem backfill_DeepLinking (c : Config) : (backfill c).DeepLinking = c.DeepLinking := by
  unfold backfill; split <;> rfl

theorem backfill_DomID (c : Config) : (backfill c).DomID = c.DomID := by
  unfold backfill; split <;> rfl

theorem backfill_DefaultModelsExpandDepth (c : Config) :
    (backfill c).DefaultModelsExpandDepth = c.DefaultModelsExpandDepth := by
  unfold backfill; split <;> rfl

theorem backfill_SupportedSubmitMethods (c : Config) :
    (backfill c).SupportedSubmitMethods = c.SupportedSubmitMethods := by
  unfold backfill; split <;> rfl

theorem backfill_TryItOutEnabled (c : Config) :
    (backfill c).TryItOutEnabled = c.TryItOutEnabled := by
  unfold backfill; split <;> rfl

theorem backfill_Plugins (c : Config) : (backfill c).Plugins = c.Plugins := by
  unfold backfill; split <;> rfl

theorem backfill_UIConfig (c : Config) : (backfill c).UIConfig = c.UIConfig := by
  unfold backfill; split <;> rfl

theorem foldl_instanceName (opts : List Opt) (c : Config) :
    (opts.foldl (fun c o => o.apply c) c).InstanceName =
      (lastInstanceName opts).getD c.InstanceName := by
  induction opts generalizing c with
  | nil => rfl
  | cons o rest ih =>
    rw [List.foldl_cons, ih]
    cases o <;> rfl

theorem foldl_tryItOut (opts : List Opt) (c : Config) :
    (opts.foldl (fun c o => o.apply c) c).TryItOutEnabled = c.TryItOutEnabled := by
  induction opts generalizing c with
  | nil => rfl
  | cons o rest ih =>
    rw [List.foldl_cons, ih]
    cases o <;> rfl

theorem foldl_URLs (opts : List Opt) (c : Config) :
    (opts.foldl (fun c o => o.apply c) c).URLs = c.URLs ++ urlsOf opts := by
  induction opts generalizing c with
  | nil => simp [urlsOf]
  | cons o rest ih =>
    rw [List.foldl_cons, ih]
    cases o <;> first | rfl | simp [Opt.apply, URLs, urlsOf]

theorem urlsOf_length (opts : List Opt) :
    (urlsOf opts).length = (opts.filter (fun o => o.isUrls)).length := by
  induction opts with
  | nil => rfl
  | cons o rest ih =>
    cases o <;> simp [urlsOf, Opt.isUrls, List.filter, ih]

theorem apply_submitMethods_frame (o : Opt) (c : Config)
    (h : o.setsSubmitMethods = false) :
    (o.apply c).SupportedSubmitMethods = c.SupportedSubmitMethods := by
  cases o <;> first | rfl | simp [Opt.setsSubmitMethods] at h

theorem apply_plugins_frame (o : Opt) (c : Config)
    (h : o.setsPlugins = false) :
    (o.apply c).Plugins = c.Plugins := by
  cases o <;> first | rfl | simp [Opt.setsPlugins] at h

theorem apply_uiConfig_frame (o : Opt) (c : Config)
    (h : o.setsUIConfig = false) :
    (o.apply c).UIConfig = c.UIConfig := by
  cases o <;> first | rfl | simp [Opt.setsUIConfig] at h

theorem foldl_submitMethods_frame (opts : List Opt) (c : Config)
    (h : ∀ o ∈ opts, o.setsSubmitMethods = false) :
    (opts.foldl (fun c o => o.apply c) c).SupportedSubmitMethods =
      c.SupportedSubmitMethods := by
  induction opts generalizing c with
  | nil => rfl
  | cons o rest ih =>
    rw [List.foldl_cons, ih _ (fun x hx => h x (List.mem_cons_of_mem _ hx)),
      apply_submitMethods_frame o c (h o (List.mem_cons_self _ _))]

theorem foldl_plugins_frame (opts : List Opt) (c : Config)
    (h : ∀ o ∈ opts, o.setsPlugins = false) :
    (opts.foldl (fun c o => o.apply c) c).Plugins = c.Plugins := by
  induction opts generalizing c with
  | nil => rfl
  | cons o rest ih =>
    rw [List.foldl_cons, ih _ (fun x hx => h x (List.mem_cons_of_mem _ hx)),
      apply_plugins_frame o c (h o (List.mem_cons_self _ _))]

theorem foldl_uiConfig_frame (opts : List Opt) (c : Config)
    (h : ∀ o ∈ opts, o.setsUIConfig = false) :
    (opts.foldl (fun c o => o.apply c) c).UIConfig = c.UIConfig := by
  induction opts generalizing c with
  | nil => rfl
  | cons o rest ih =>
    rw [List.foldl_cons, ih _ (fun x hx => h x (List.mem_cons_of_mem _ hx)),
      apply_uiConfig_frame o c (h o (List.mem_cons_self _ _))]

/-- C1: constructing with zero options yields the documented default for
every field: URL "doc.json", empty URLs, DocExpansion "list", DomID
"swagger-ui", DeepLinking true, all display toggles false, both depths 1,
DefaultModelRendering "example", the 8-element submit-method list,
TryItOutEnabled false, and empty scripts, plugins and UI-config map. -/
theorem newConfig_zero_options_defaults :
    (newConfigOpts []).URL = "doc.json" ∧
    (newConfigOpts []).URLs = [] ∧
    (newConfigOpts []).DocExpansion = "list" ∧
    (newConfigOpts []).DomID = "swagger-ui" ∧
    (newConfigOpts []).DeepLinking = true ∧
    (newConfigOpts []).PersistAuthorization = false ∧
    (newConfigOpts []).DisplayOperationID = false ∧
    (newConfigOpts []).DefaultModelsExpandDepth = 1 ∧
    (newConfigOpts []).DefaultModelExpandDepth = 1 ∧
    (newConfigOpts []).DefaultModelRendering = "example" ∧
    (newConfigOpts []).DisplayRequestDuration = false ∧
    (newConfigOpts []).ShowExtensions = false ∧
    (newConfigOpts []).ShowCommonExtensions = false ∧
    (newConfigOpts []).SupportedSubmitMethods =
      ["get", "put", "post", "delete", "options", "head", "patch", "trace"] ∧
    (newConfigOpts []).TryItOutEnabled = false ∧
    (newConfigOpts []).BeforeScript = TemplateJS.mk "" ∧
    (newConfigOpts []).AfterScript = TemplateJS.mk "" ∧
    (newConfigOpts []).Plugins = [] ∧
    (newConfigOpts []).UIConfig = [] :=
  ⟨rfl, rfl, rfl, rfl, rfl, rfl, rfl, rfl, rfl, rfl, rfl, rfl, rfl, rfl, rfl,
    rfl, rfl, rfl, rfl⟩

/-- C2: for every option sequence the returned instance name is never empty;
when it is empty after the option loop it is backfilled with the
process-wide default name, and a last non-empty set-instance-name argument
is preserved verbatim. -/
theorem instanceName_never_empty (opts : List Opt) :
    (newConfigOpts opts).InstanceName ≠ "" ∧
    ((applyAll opts).InstanceName = "" → (newConfigOpts opts).InstanceName = swagName) ∧
    (∀ v, v ≠ "" → lastInstanceName opts = some v →
      (newConfigOpts opts).InstanceName = v) := by
  rw [newConfigOpts_eq_backfill]
  unfold backfill
  have hfold : (applyAll opts).InstanceName = (lastInstanceName opts).getD "" :=
    foldl_instanceName opts defaultConfig
  refine ⟨?_, ?_, ?_⟩
  · split
    · intro hc
      exact absurd (show swagName = "" from hc) (by decide)
    · next h => exact h
  · intro h0
    rw [if_pos h0]
  · intro v hv hlast
    have hv2 : (applyAll opts).InstanceName = v := by
      rw [hfold, hlast]
      rfl
    rw [if_neg (by rw [hv2]; exact hv)]
    exact hv2

/-- C2 witness: setting the instance name to "petstore" keeps it verbatim. -/
theorem instanceName_never_empty_witness :
    (newConfigOpts [Opt.instanceName "petstore"]).InstanceName = "petstore" :=
  (instanceName_never_empty [Opt.instanceName "petstore"]).2.2 "petstore"
    (by decide) rfl

/-- C3: options apply in caller order, so invoking the same scalar option
twice in one construction leaves exactly the last value in the returned
record (shown for URL, DeepLinking, DocExpansion, DomID and
DefaultModelsExpandDepth, after an arbitrary prefix of other options). -/
theorem scalar_options_last_write_wins (pre : List Opt) (a b s1 s2 t1 t2 : String)
    (b1 b2 : Bool) (d1 d2 : Int) :
    (newConfigOpts (pre ++ [Opt.url a, Opt.url b])).URL = b ∧
    (newConfigOpts (pre ++ [Opt.deepLinking b1, Opt.deepLinking b2])).DeepLinking = b2 ∧
    (newConfigOpts (pre ++ [Opt.docExpansion s1, Opt.docExpansion s2])).DocExpansion = s2 ∧
    (newConfigOpts (pre ++ [Opt.domID t1, Opt.domID t2])).DomID = t2 ∧
    (newConfigOpts (pre ++ [Opt.defaultModelsExpandDepth d1,
      Opt.defaultModelsExpandDepth d2])).DefaultModelsExpandDepth = d2 := by
  refine ⟨?_, ?_, ?_, ?_, ?_⟩
  · rw [newConfigOpts_eq_backfill, backfill_URL, applyAll_append]
    rfl
  · rw [newConfigOpts_eq_backfill, backfill_DeepLinking, applyAll_append]
    rfl
  · rw [newConfigOpts_eq_backfill, backfill_DocExpansion, applyAll_append]
    rfl
  · rw [newConfigOpts_eq_backfill, backfill_DomID, applyAll_append]
    rfl
  · rw [newConfigOpts_eq_backfill, backfill_DefaultModelsExpandDepth, applyAll_append]
    rfl

/-- C4: the list-replacing options replace wholesale: after the last
SupportedSubmitMethods / Plugins / UIConfig invocation (no later invocation
of the same option), the field equals exactly that call's argument (under
the raw-script conversion for Plugins and UIConfig), with no merge with the
default. -/
theorem list_replacing_options_replace (pre post : List Opt) (ms ps : List String)
    (props : List (String × String))
    (h1 : ∀ o ∈ post, o.setsSubmitMethods = false)
    (h2 : ∀ o ∈ post, o.setsPlugins = false)
    (h3 : ∀ o ∈ post, o.setsUIConfig = false) :
    (newConfigOpts (pre ++ [Opt.supportedSubmitMethods ms] ++ post)).SupportedSubmitMethods = ms ∧
    (newConfigOpts (pre ++ [Opt.plugins ps] ++ post)).Plugins =
      ps.map (fun v => TemplateJS.mk v) ∧
    (newConfigOpts (pre ++ [Opt.uiConfig props] ++ post)).UIConfig =
      props.map (fun p => (TemplateJS.mk p.1, TemplateJS.mk p.2)) := by
  refine ⟨?_, ?_, ?_⟩
  · rw [newConfigOpts_eq_backfill, backfill_SupportedSubmitMethods, applyAll_append,
      foldl_submitMethods_frame post _ h1, applyAll_append]
    rfl
  · rw [newConfigOpts_eq_backfill, backfill_Plugins, applyAll_append,
      foldl_plugins_frame post _ h2, applyAll_append]
    rfl
  · rw [newConfigOpts_eq_backfill, backfill_UIConfig, applyAll_append,
      foldl_uiConfig_frame post _ h3, applyAll_append]
    rfl

/-- C4 witness: concrete constructions with a trailing unrelated option. -/
theorem list_replacing_options_replace_witness :
    (newConfigOpts ([Opt.url "a"] ++ [Opt.supportedSubmitMethods ["get"]] ++
      [Opt.deepLinking false])).SupportedSubmitMethods = ["get"] ∧
    (newConfigOpts ([Opt.url "a"] ++ [Opt.plugins ["p1"]] ++
      [Opt.deepLinking false])).Plugins = (["p1"].map (fun v => TemplateJS.mk v)) ∧
    (newConfigOpts ([Opt.url "a"] ++ [Opt.uiConfig [("x", "1")]] ++
      [Opt.deepLinking false])).UIConfig =
      ([("x", "1")].map (fun p => (TemplateJS.mk p.1, TemplateJS.mk p.2))) :=
  list_replacing_options_replace [Opt.url "a"] [Opt.deepLinking false] ["get"] ["p1"]
    [("x", "1")] (by decide) (by decide) (by decide)

/-- C5: the add-named-URL option appends: for any option sequence the URLs
field equals the list of (url, name) arguments of the urls invocations in
call order, so N invocations yield exactly N entries. -/
theorem urls_option_appends_in_order (opts : List Opt) :
    (newConfigOpts opts).URLs = urlsOf opts ∧
    (newConfigOpts opts).URLs.length =
      (opts.filter (fun o => o.isUrls)).length := by
  have h : (newConfigOpts opts).URLs = urlsOf opts := by
    rw [newConfigOpts_eq_backfill, backfill_URLs]
    exact foldl_URLs opts defaultConfig
  exact ⟨h, by rw [h, urlsOf_length]⟩

/-- C6: every option and the constructor are total: option values, however
malformed (invalid enum strings, negative depths, empty URLs), are stored
as-is without validation, and construction always returns a record. -/
theorem options_total_and_unvalidated (c : Config) (s : String) (d : Int)
    (opts : List Opt) :
    (DocExpansion s c).DocExpansion = s ∧
    (DefaultModelRendering s c).DefaultModelRendering = s ∧
    (DefaultModelsExpandDepth d c).DefaultModelsExpandDepth = d ∧
    (DefaultModelExpandDepth d c).DefaultModelExpandDepth = d ∧
    (URL s c).URL = s ∧
    ∃ result : Config, newConfigOpts opts = result :=
  ⟨rfl, rfl, rfl, rfl, rfl, ⟨newConfigOpts opts, rfl⟩⟩

/-- C7: constructing with exactly [URL "custom.yaml", DeepLinking false]
sets those two fields and leaves every other field at its documented
default (the instance name being backfilled to the process default). -/
theorem url_deepLinking_frame_example :
    (newConfig [URL "custom.yaml", DeepLinking false]).URL = "custom.yaml" ∧
    (newConfig [URL "custom.yaml", DeepLinking false]).DeepLinking = false ∧
    (newConfig [URL "custom.yaml", DeepLinking false]).URLs = [] ∧
    (newConfig [URL "custom.yaml", DeepLinking false]).DocExpansion = "list" ∧
    (newConfig [URL "custom.yaml", DeepLinking false]).DomID = "swagger-ui" ∧
    (newConfig [URL "custom.yaml", DeepLinking false]).PersistAuthorization = false ∧
    (newConfig [URL "custom.yaml", DeepLinking false]).DisplayOperationID = false ∧
    (newConfig [URL "custom.yaml", DeepLinking false]).DefaultModelsExpandDepth = 1 ∧
    (newConfig [URL "custom.yaml", DeepLinking false]).DefaultModelExpandDepth = 1 ∧
    (newConfig [URL "custom.yaml", DeepLinking false]).DefaultModelRendering = "example" ∧
    (newConfig [URL "custom.yaml", DeepLinking false]).DisplayRequestDuration = false ∧
    (newConfig [URL "custom.yaml", DeepLinking false]).ShowExtensions = false ∧
    (newConfig [URL "custom.yaml", DeepLinking false]).ShowCommonExtensions = false ∧
    (newConfig [URL "custom.yaml", DeepLinking false]).SupportedSubmitMethods =
      ["get", "put", "post", "delete", "options", "head", "patch", "trace"] ∧
    (newConfig [URL "custom.yaml", DeepLinking false]).TryItOutEnabled = false ∧
    (newConfig [URL "custom.yaml", DeepLinking false]).InstanceName = swagName ∧
    (newConfig [URL "custom.yaml", DeepLinking false]).BeforeScript = TemplateJS.mk "" ∧
    (newConfig [URL "custom.yaml", DeepLinking false]).AfterScript = TemplateJS.mk "" ∧
    (newConfig [URL "custom.yaml", DeepLinking false]).Plugins = [] ∧
    (newConfig [URL "custom.yaml", DeepLinking false]).UIConfig = [] :=
  ⟨rfl, rfl, rfl, rfl, rfl, rfl, rfl, rfl, rfl, rfl, rfl, rfl, rfl, rfl, rfl,
    rfl, rfl, rfl, rfl, rfl⟩

/-- C8: UIConfig converts each string key and value to the raw-script type
and replaces the whole map — with input {"x": "1"} the result has exactly
the one entry (raw "x", raw "1"); Plugins converts each string likewise,
preserving count and order. -/
theorem uiConfig_plugins_convert_raw (ps : List String) (c : Config) :
    (newConfig [UIConfig [("x", "1")]]).UIConfig =
      [(TemplateJS.mk "x", TemplateJS.mk "1")] ∧
    (newConfig [UIConfig [("x", "1")]]).UIConfig.length = 1 ∧
    (Plugins ps c).Plugins = ps.map (fun v => TemplateJS.mk v) ∧
    ((Plugins ps c).Plugins).length = ps.length := by
  refine ⟨rfl, rfl, rfl, ?_⟩
  simp [Plugins]

/-- C9: no catalog option writes TryItOutEnabled, so for every sequence of
catalog options the returned record's TryItOutEnabled is its default,
false. -/
theorem tryItOut_never_enabled (opts : List Opt) :
    (newConfigOpts opts).TryItOutEnabled = false := by
  rw [newConfigOpts_eq_backfill, backfill_TryItOutEnabled]
  exact foldl_tryItOut opts defaultConfig

/-- C10: invoking SupportedSubmitMethods with zero arguments stores the
empty list, replacing the default — the default is not restored, so the
returned record's method list has length 0. -/
theorem submitMethods_zero_args_empty (pre : List Opt) (c : Config) :
    (SupportedSubmitMethods [] c).SupportedSubmitMethods = [] ∧
    (newConfigOpts (pre ++ [Opt.supportedSubmitMethods []])).SupportedSubmitMethods = [] ∧
    (newConfig [SupportedSubmitMethods []]).SupportedSubmitMethods.length = 0 := by
  refine ⟨rfl, ?_, rfl⟩
  rw [newConfigOpts_eq_backfill, backfill_SupportedSubmitMethods, applyAll_append]
  rfl

end HttpSwagger
